import Mathlib

set_option maxRecDepth 16384

/-!
Shallow embedding of the LC-3 assembler lc3as.py: statement data model,
pass 1 (symbol table), pass 2 (encoding), and the machine-instruction
generators, translated from the source.  Python raises exceptions for
missing dictionary keys, out-of-range list indexes, unparseable integers
and failed assertions; the embedding returns these as `Except` errors.
-/

/-- Errors raised by the assembler.  Each constructor records the Python
exception it stands for, with the data interpolated into the message. -/
inductive AsmError
  | keyError (field : String)
  | indexError
  | valueError
  | missingOrig
  | duplicateLabel (label_name : String)
  | undefinedLabel (label_name : String)
  | offsetRangeError (width : Nat) (pc : Int) (label_name : String) (address : Int)
  | nameError
  | assertionError

/-- An operand object, as produced by the individual operand parsers:
a REGISTER carries its text and its index (a digit 0..6, hence a natural
number), an IMMEDIATE carries its signed value, a LABEL carries its name. -/
inductive Operand
  | register (reg_name : String) (value : Nat)
  | immediate (value : Int)
  | label (label_name : String)

/-- Reading the value attribute of an operand object: a LABEL operand has
no value field, so Python raises KeyError. -/
def Operand.value : Operand → Except AsmError Int
  | .register _ v => .ok (Int.ofNat v)
  | .immediate v => .ok v
  | .label _ => .error (.keyError "value")

/-- Reading the name attribute of an operand object: an IMMEDIATE operand
has no name field, so Python raises KeyError. -/
def Operand.name : Operand → Except AsmError String
  | .register n _ => .ok n
  | .immediate _ => .error (.keyError "name")
  | .label n => .ok n

/-- Reading the value attribute of an operand standing in a register slot
(DR, SR, SR1, SR2, BaseR).  The parsed operand shapes place a REGISTER
here, whose index is a natural number; any other operand maps to the
KeyError a label operand would raise. -/
def Operand.reg_value : Operand → Except AsmError Nat
  | .register _ v => .ok v
  | .immediate _ => .error (.keyError "value")
  | .label _ => .error (.keyError "value")

/-- The operand of a FILL directive: parse_directive_statement stores an
integer token under the field value, but a label token under the field
label (and then no value field exists). -/
inductive FillArg
  | intVal (value : Int)
  | labelRef (label_name : String)

/-- An instruction statement: the normalized mnemonic string and the
parsed operand list. -/
structure InsStatement where
  instruction : String
  operands : List Operand

/-- A parsed statement: an instruction, or one of the directives LABEL,
ORIG, END, FILL, BLKW, STRINGZ.  A STRINGZ payload is the list of code
points of the decoded string literal (ord of each character). -/
inductive Statement
  | instruction (ins : InsStatement)
  | labelDecl (label_name : String)
  | orig (address : Int)
  | endDir
  | fill (arg : FillArg)
  | blkw (size : Int)
  | stringz (value : List Nat)

/-- List indexing, raising IndexError when out of range. -/
def list_get (l : List Operand) (i : Nat) : Except AsmError Operand :=
  match l.get? i with
  | some a => .ok a
  | none => .error .indexError

/-- The opcodes dictionary. -/
def opcodes : List (String × Nat) :=
  [("BR", 0x0), ("BRn", 0x0), ("BRz", 0x0), ("BRp", 0x0),
   ("BRnz", 0x0), ("BRnp", 0x0), ("BRzp", 0x0), ("BRnzp", 0x0),
   ("ADD", 0x1), ("LD", 0x2), ("ST", 0x3), ("JSR", 0x4), ("JSRR", 0x4),
   ("AND", 0x5), ("LDR", 0x6), ("STR", 0x7), ("RTI", 0x8), ("NOT", 0x9),
   ("LDI", 0xA), ("STI", 0xB), ("JMP", 0xC), ("RET", 0xC),
   ("LEA", 0xE), ("TRAP", 0xF)]

/-- Dictionary lookup, raising KeyError on a missing key. -/
def dict_get (d : List (String × Nat)) (k : String) : Except AsmError Nat :=
  match List.lookup k d with
  | some v => .ok v
  | none => .error (.keyError k)

/-- Label lookup with user-friendly exception. -/
def lookup_label (label : String) (symtable : List (String × Int)) : Except AsmError Int :=
  match List.lookup label symtable with
  | none => .error (.undefinedLabel label)
  | some address => .ok address

/-- Returns the 5-bit two's complement representation of the number.
Python computes 0x1 << 4 | (0b1111 & value); on a negative
arbitrary-precision integer, the bitwise and with the all-ones mask
0b1111 is the nonnegative residue value % 2^4, which is below 16 and is
then combined with the sign bit by bitwise or on naturals. -/
def generate_imm5 (value : Int) : Nat :=
  if value < 0 then
    (0x1 <<< 4) ||| (value % 16).toNat
  else
    value.toNat

/-- Returns the 6-bit two's complement representation of the number
(Python: 0x1 << 5 | (0b11111 & value) when negative, see generate_imm5). -/
def generate_offset6 (value : Int) : Nat :=
  if value < 0 then
    (0x1 <<< 5) ||| (value % 32).toNat
  else
    value.toNat

/-- Turns a label into a 9-bit two's complement signed offset.  Python
computes 0x1 << 8 | (0b11111111 & pcoffset) in the negative case; the
bitwise and with the all-ones mask 0b11111111 on a negative
arbitrary-precision integer is the nonnegative residue pcoffset % 2^8. -/
def generate_pcoffset9 (label : String) (symtable : List (String × Int)) (pc : Int) :
    Except AsmError Nat :=
  match lookup_label label symtable with
  | .error e => .error e
  | .ok address =>
    let pcoffset := address - pc
    if pcoffset < -256 ∨ pcoffset > 255 then
      .error (.offsetRangeError 9 pc label address)
    else if pcoffset < 0 then
      .ok ((0x1 <<< 8) ||| (pcoffset % 256).toNat)
    else
      .ok pcoffset.toNat

/-- Turns a label into an 11-bit two's complement signed offset
(Python: 0x1 << 10 | (0b1111111111 & pcoffset) when negative, see
generate_pcoffset9). -/
def generate_pcoffset11 (label : String) (symtable : List (String × Int)) (pc : Int) :
    Except AsmError Nat :=
  match lookup_label label symtable with
  | .error e => .error e
  | .ok address =>
    let pcoffset := address - pc
    if pcoffset < -1024 ∨ pcoffset > 1023 then
      .error (.offsetRangeError 11 pc label address)
    else if pcoffset < 0 then
      .ok ((0x1 <<< 10) ||| (pcoffset % 1024).toNat)
    else
      .ok pcoffset.toNat

/-- Generates a binary machine instruction of the [DR, SR1, SR2] format. -/
def generate_bmins_DR_SR1_SR2 (statement : InsStatement) : Except AsmError Nat := do
  let opcode ← dict_get opcodes statement.instruction
  let op0 ← list_get statement.operands 0
  let dr ← op0.reg_value
  let op1 ← list_get statement.operands 1
  let sr1 ← op1.reg_value
  let op2 ← list_get statement.operands 2
  let sr2 ← op2.reg_value
  pure (opcode <<< 12 ||| dr <<< 9 ||| sr1 <<< 6 ||| sr2 <<< 0)

/-- Generates a binary machine instruction of the [DR, SR1, imm5] format. -/
def generate_bmins_DR_SR1_imm5 (statement : InsStatement) : Except AsmError Nat := do
  let opcode ← dict_get opcodes statement.instruction
  let op0 ← list_get statement.operands 0
  let dr ← op0.reg_value
  let op1 ← list_get statement.operands 1
  let sr1 ← op1.reg_value
  let op2 ← list_get statement.operands 2
  let v ← op2.value
  pure (opcode <<< 12 ||| dr <<< 9 ||| sr1 <<< 6 ||| 0b1 <<< 5 ||| generate_imm5 v <<< 0)

/-- Generates a binary machine instruction of the [DR, PCoffset9] format. -/
def generate_bmins_DR_PCoffset9 (statement : InsStatement) (symtable : List (String × Int))
    (pc : Int) : Except AsmError Nat := do
  let opcode ← dict_get opcodes statement.instruction
  let op0 ← list_get statement.operands 0
  let dr ← op0.reg_value
  let op1 ← list_get statement.operands 1
  let label ← op1.name
  let pcoffset9 ← generate_pcoffset9 label symtable pc
  pure (opcode <<< 12 ||| dr <<< 9 ||| pcoffset9 <<< 0)

/-- Generates a binary machine instruction of the [SR, PCoffset9] format. -/
def generate_bmins_SR_PCoffset9 (statement : InsStatement) (symtable : List (String × Int))
    (pc : Int) : Except AsmError Nat :=
  generate_bmins_DR_PCoffset9 statement symtable pc

/-- Generates a binary machine instruction of the [DR, BaseR, offset6] format. -/
def generate_bmins_DR_BaseR_offset6 (statement : InsStatement) : Except AsmError Nat := do
  let opcode ← dict_get opcodes statement.instruction
  let op0 ← list_get statement.operands 0
  let dr ← op0.reg_value
  let op1 ← list_get statement.operands 1
  let baser ← op1.reg_value
  let op2 ← list_get statement.operands 2
  let v ← op2.value
  pure (opcode <<< 12 ||| dr <<< 9 ||| baser <<< 6 ||| generate_offset6 v <<< 0)

/-- Generates a binary machine instruction of the [SR, BaseR, offset6] format. -/
def generate_bmins_SR_BaseR_offset6 (statement : InsStatement) : Except AsmError Nat :=
  generate_bmins_DR_BaseR_offset6 statement

/-- Generates an ADD binary machine instruction, dispatching on the
operand type of the third operand (Python: assert False otherwise). -/
def generate_ADD (statement : InsStatement) : Except AsmError Nat := do
  let op2 ← list_get statement.operands 2
  match op2 with
  | .register _ _ => generate_bmins_DR_SR1_SR2 statement
  | .immediate _ => generate_bmins_DR_SR1_imm5 statement
  | .label _ => .error .assertionError

/-- Generates an AND binary machine instruction. -/
def generate_AND (statement : InsStatement) : Except AsmError Nat := do
  let op2 ← list_get statement.operands 2
  match op2 with
  | .register _ _ => generate_bmins_DR_SR1_SR2 statement
  | .immediate _ => generate_bmins_DR_SR1_imm5 statement
  | .label _ => .error .assertionError

/-- Generates a BR binary machine instruction.  Python tests membership of
the single characters n, z, p in the mnemonic string; a naked BR is
interpreted as a BRnzp. -/
def generate_BR (statement : InsStatement) (symtable : List (String × Int)) (pc : Int) :
    Except AsmError Nat := do
  let opcode ← dict_get opcodes statement.instruction
  let op0 ← list_get statement.operands 0
  let label ← op0.name
  let pcoffset9 ← generate_pcoffset9 label symtable pc
  let n : Nat := if statement.instruction.data.contains 'n' then 0x1 else 0x0
  let z : Nat := if statement.instruction.data.contains 'z' then 0x1 else 0x0
  let p : Nat := if statement.instruction.data.contains 'p' then 0x1 else 0x0
  let (n, z, p) := if n == 0 && z == 0 && p == 0 then (1, 1, 1) else (n, z, p)
  pure (opcode <<< 12 ||| n <<< 11 ||| z <<< 10 ||| p <<< 9 ||| pcoffset9 <<< 0)

/-- Generates a JMP binary machine instruction. -/
def generate_JMP (statement : InsStatement) : Except AsmError Nat := do
  let opcode ← dict_get opcodes statement.instruction
  let op0 ← list_get statement.operands 0
  let baser ← op0.reg_value
  pure (opcode <<< 12 ||| baser <<< 6)

/-- Generates a JSR binary machine instruction. -/
def generate_JSR (statement : InsStatement) (symtable : List (String × Int)) (pc : Int) :
    Except AsmError Nat := do
  let opcode ← dict_get opcodes statement.instruction
  let op0 ← list_get statement.operands 0
  let label ← op0.name
  let pcoffset11 ← generate_pcoffset11 label symtable pc
  pure (opcode <<< 12 ||| 0b1 <<< 11 ||| pcoffset11 <<< 0)

/-- Generates a JSRR binary machine instruction. -/
def generate_JSRR (statement : InsStatement) : Except AsmError Nat := do
  let opcode ← dict_get opcodes statement.instruction
  let op0 ← list_get statement.operands 0
  let baser ← op0.reg_value
  pure (opcode <<< 12 ||| baser <<< 6)

/-- Generates an LD binary machine instruction. -/
def generate_LD (statement : InsStatement) (symtable : List (String × Int)) (pc : Int) :
    Except AsmError Nat :=
  generate_bmins_DR_PCoffset9 statement symtable pc

/-- Generates an LDI binary machine instruction. -/
def generate_LDI (statement : InsStatement) (symtable : List (String × Int)) (pc : Int) :
    Except AsmError Nat :=
  generate_bmins_DR_PCoffset9 statement symtable pc

/-- Generates an LDR binary machine instruction. -/
def generate_LDR (statement : InsStatement) : Except AsmError Nat :=
  generate_bmins_DR_BaseR_offset6 statement

/-- Generates an LEA binary machine instruction. -/
def generate_LEA (statement : InsStatement) (symtable : List (String × Int)) (pc : Int) :
    Except AsmError Nat :=
  generate_bmins_DR_PCoffset9 statement symtable pc

/-- Generates a NOT binary machine instruction. -/
def generate_NOT (statement : InsStatement) : Except AsmError Nat := do
  let opcode ← dict_get opcodes statement.instruction
  let op0 ← list_get statement.operands 0
  let dr ← op0.reg_value
  let op1 ← list_get statement.operands 1
  let sr ← op1.reg_value
  pure (opcode <<< 12 ||| dr <<< 9 ||| sr <<< 6 ||| 0b111111 <<< 0)

/-- Generates a RET binary machine instruction. -/
def generate_RET (statement : InsStatement) : Except AsmError Nat := do
  let opcode ← dict_get opcodes statement.instruction
  pure (opcode <<< 12 ||| 0b111 <<< 6)

/-- Generates a RTI binary machine instruction. -/
def generate_RTI : Nat :=
  0x1 <<< 15

/-- Generates a ST binary machine instruction. -/
def generate_ST (statement : InsStatement) (symtable : List (String × Int)) (pc : Int) :
    Except AsmError Nat :=
  generate_bmins_SR_PCoffset9 statement symtable pc

/-- Generates a STI binary machine instruction. -/
def generate_STI (statement : InsStatement) (symtable : List (String × Int)) (pc : Int) :
    Except AsmError Nat :=
  generate_bmins_DR_PCoffset9 statement symtable pc

/-- Generates a STR binary machine instruction. -/
def generate_STR (statement : InsStatement) : Except AsmError Nat :=
  generate_bmins_SR_BaseR_offset6 statement

/-- Generates a TRAP binary machine instruction.  The trap vector was
parsed as an unsigned 8-bit immediate, hence nonnegative. -/
def generate_TRAP (statement : InsStatement) : Except AsmError Nat := do
  let opcode ← dict_get opcodes statement.instruction
  let op0 ← list_get statement.operands 0
  let trapvect8 ← op0.value
  pure (opcode <<< 12 ||| trapvect8.toNat <<< 0)

/-- Returns the size (in words) of the instruction: 1 for every
instruction and for FILL, the size operand for BLKW, and
int((len + 1) / 2) for STRINGZ (Python floor division); None for the
LABEL, ORIG and END directives. -/
def size_of_ins (statement : Statement) : Option Int :=
  match statement with
  | .instruction _ => some 1
  | .fill _ => some 1
  | .blkw size => some size
  | .stringz value => some (Int.ofNat ((value.length + 1) / 2))
  | _ => none

/-- Finds the address of the first ORIG directive, scanning in order. -/
def find_orig : List Statement → Option Int
  | [] => none
  | .orig address :: _ => some address
  | _ :: rest => find_orig rest

/-- The symbol-table loop of make_symbol_table: a LABEL directive is
entered at the current location counter (duplicates are an error); every
other statement advances the counter by its size when that is not None.
The scan covers the whole statement list; there is no check for END. -/
def make_symbol_table_loop :
    List Statement → List (String × Int) → Int → Except AsmError (List (String × Int))
  | [], symbol_table, _ => .ok symbol_table
  | .labelDecl label_name :: rest, symbol_table, location_counter =>
    if (List.lookup label_name symbol_table).isSome then
      .error (.duplicateLabel label_name)
    else
      make_symbol_table_loop rest (symbol_table ++ [(label_name, location_counter)])
        location_counter
  | statement :: rest, symbol_table, location_counter =>
    match size_of_ins statement with
    | some size => make_symbol_table_loop rest symbol_table (location_counter + size)
    | none => make_symbol_table_loop rest symbol_table location_counter

/-- Generates the symbol table (pass 1): find the first ORIG directive
anywhere in the list to seed the location counter (error when there is
none), then run the symbol-table loop over all statements. -/
def make_symbol_table (statements : List Statement) : Except AsmError (List (String × Int)) :=
  match find_orig statements with
  | none => .error .missingOrig
  | some location_counter => make_symbol_table_loop statements [] location_counter

/-- The pair-packing loop of the STRINGZ handler: while at least two
characters remain, pack two code points into one word, high byte first. -/
def stringz_pack : List Nat → List Nat
  | c1 :: c2 :: rest => ((c1 <<< 8) ||| (c2 <<< 0)) :: stringz_pack rest
  | _ => []

/-- The full STRINGZ emission.  After the while loop the index i equals
twice the number of packed pairs, so it is always even: the branch for
i == 1 (meant to emit a final odd character together with the NUL) is
unreachable, and the branch for i == 0 (which appends the lone NUL word)
runs exactly when the payload has fewer than two characters. -/
def stringz_bmins (chars : List Nat) : List Nat :=
  stringz_pack chars ++ (if chars.length < 2 then [0] else [])

/-- Turns a statement into a list of binary machine instructions, or None
for the LABEL, ORIG and END directives.  The FILL handler returns
[statement.value]: a FILL parsed from a label operand has no value field,
so the read raises KeyError and the symbol table is never consulted.  The
BLKW handler evaluates len(statement.value), but a BLKW statement stores
its operand under the field size, so the read raises KeyError before its
loop can run. -/
def assemble_statement (statement : Statement) (symtable : List (String × Int)) (pc : Int) :
    Except AsmError (Option (List Int)) :=
  match statement with
  | .instruction ins => do
    let insname := ins.instruction
    let bmin ←
      if insname == "ADD" then generate_ADD ins
      else if insname == "AND" then generate_AND ins
      else if List.isPrefixOf "BR".data insname.data then generate_BR ins symtable pc
      else if insname == "JMP" then generate_JMP ins
      else if insname == "JSR" then generate_JSR ins symtable pc
      else if insname == "JSRR" then generate_JSRR ins
      else if insname == "LD" then generate_LD ins symtable pc
      else if insname == "LDI" then generate_LDI ins symtable pc
      else if insname == "LDR" then generate_LDR ins
      else if insname == "LEA" then generate_LEA ins symtable pc
      else if insname == "NOT" then generate_NOT ins
      else if insname == "RET" then generate_RET ins
      else if insname == "RTI" then pure generate_RTI
      else if insname == "ST" then generate_ST ins symtable pc
      else if insname == "STI" then generate_STI ins symtable pc
      else if insname == "STR" then generate_STR ins
      else if insname == "TRAP" then generate_TRAP ins
      else .error .nameError
    pure (some [(bmin : Int)])
  | .labelDecl _ => .ok none
  | .orig _ => .ok none
  | .endDir => .ok none
  | .fill arg =>
    match arg with
    | .intVal value => .ok (some [value])
    | .labelRef _ => .error (.keyError "value")
  | .blkw _ => .error (.keyError "value")
  | .stringz chars => .ok (some ((stringz_bmins chars).map Int.ofNat))

/-- The emission loop of assemble: for each statement of the whole list
(there is no check for END), the program counter is the location counter
plus one; a None result is skipped, a word list is appended and advances
the location counter by its length. -/
def assemble_loop (statements : List Statement) (symtable : List (String × Int))
    (location_counter : Int) (machine_instructions : List Int) :
    Except AsmError (List Int) :=
  match statements with
  | [] => .ok machine_instructions
  | statement :: rest =>
    match assemble_statement statement symtable (location_counter + 1) with
    | .error e => .error e
    | .ok none => assemble_loop rest symtable location_counter machine_instructions
    | .ok (some bmins) =>
      assemble_loop rest symtable (location_counter + bmins.length)
        (machine_instructions ++ bmins)

/-- Turns the statements into binary machine instructions (pass 2): the
first ORIG directive seeds the location counter and its address becomes
the first output word, then the emission loop runs over all statements. -/
def assemble (statements : List Statement) (symtable : List (String × Int)) :
    Except AsmError (List Int) :=
  match find_orig statements with
  | none => .error .assertionError
  | some location_counter =>
    assemble_loop statements symtable location_counter [location_counter]

/-!
Spec-side definitions, used only to compare the source behaviour against
the encoding the specification describes.
-/

/-- The pair packing of the STRINGZ encoding as the specification
describes it: successive pairs of code units become one word each, high
byte first; a final odd unit occupies the high byte of the last word with
a zero low byte. -/
def spec_stringz_pack : List Nat → List Nat
  | c1 :: c2 :: rest => ((c1 <<< 8) ||| c2) :: spec_stringz_pack rest
  | [c] => [c <<< 8]
  | [] => []

/-- The STRINGZ encoding as the specification describes it: append the
terminating NUL to the payload, then pack pairs big-endian.  This yields
exactly ceil((len + 1) / 2) words. -/
def spec_stringz_words (chars : List Nat) : List Nat :=
  spec_stringz_pack (chars ++ [0])

/-!
Model of the hex-token handling in the lexer and of the register token
pattern, translated from lex_line and token_patterns.
-/

/-- Numeric value of one hexadecimal digit character. -/
def hex_digit_value (c : Char) : Nat :=
  if '0' ≤ c ∧ c ≤ '9' then c.toNat - '0'.toNat
  else if 'a' ≤ c ∧ c ≤ 'f' then c.toNat - 'a'.toNat + 10
  else if 'A' ≤ c ∧ c ≤ 'F' then c.toNat - 'A'.toNat + 10
  else 0

/-- Value of a nonempty string of hexadecimal digits, as int(s, 16)
computes it. -/
def parse_hex_digits (digits : List Char) : Nat :=
  digits.foldl (fun acc c => 16 * acc + hex_digit_value c) 0

/-- The value the lexer attaches to a HEX token with the given matched
text: int(text.lstrip(the two characters 0 and x), 16).  lstrip removes
every leading character drawn from that set, and int raises ValueError
when handed the empty string. -/
def hex_token_value (text : List Char) : Except AsmError Int :=
  let stripped := text.dropWhile (fun c => c == '0' || c == 'x')
  if stripped.isEmpty then
    .error .valueError
  else
    .ok (Int.ofNat (parse_hex_digits stripped))

/-- Whether a piece of text is matched in full by the REGISTER token
pattern: r or R followed by one digit 0 to 6. -/
def register_token_matches : List Char → Bool
  | [c1, c2] => (c1 == 'r' || c1 == 'R') && (decide ('0' ≤ c2) && decide (c2 ≤ '6'))
  | _ => false

/-- Whether a statement is an ORIG directive. -/
def is_orig_statement : Statement → Bool
  | .orig _ => true
  | _ => false

/-!
Helper lemmas about the two's-complement bit patterns.
-/

/-- Bitwise or with the lone bit 8 set adds 256 to a number below 256. -/
theorem lor_bit8_eq_add : ∀ m : Nat, m < 256 → 256 ||| m = 256 + m := by decide

/-- Bitwise or with the lone bit 10 set adds 1024 to a number below 1024. -/
theorem lor_bit10_eq_add : ∀ m : Nat, m < 1024 → 1024 ||| m = 1024 + m := by decide

/-!
The claims.
-/

/-- Claim C1.  The claim states that a Stringz payload is packed
big-endian with a terminating NUL, emitting ceil((len + 1) / 2) words.
The code diverges: it emits the packed pairs, and appends a NUL word only
when the payload has fewer than two characters, because the branch meant
to flush an odd final character tests the loop index against 1, a value
the index (always even) never takes.  Hence the payload A emits the
single word 0 (dropping the A), AB emits only 0x4142 (no NUL word), and
ABC emits only 0x4142 (dropping the C and the NUL); each differs from the
specified encoding, which this theorem also evaluates.  Only the empty
payload matches the specification. -/
theorem stringz_emission_code_bug :
    assemble_statement (.stringz [65]) [] 0 = .ok (some [0]) ∧
    spec_stringz_words [65] = [0x4100] ∧
    assemble_statement (.stringz [65, 66]) [] 0 = .ok (some [0x4142]) ∧
    spec_stringz_words [65, 66] = [0x4142, 0x0000] ∧
    assemble_statement (.stringz [65, 66, 67]) [] 0 = .ok (some [0x4142]) ∧
    spec_stringz_words [65, 66, 67] = [0x4142, 0x4300] ∧
    assemble_statement (.stringz []) [] 0 = .ok (some [0]) ∧
    spec_stringz_words [] = [0x0000] :=
  ⟨rfl, rfl, rfl, rfl, rfl, rfl, rfl, rfl⟩

/-- Claim C2.  The claim states that a Fill statement emits the low 16
bits of an integer operand, and the resolved address of a label operand.
The code diverges on both branches: the integer operand is emitted raw
(minus one is emitted as minus one, not as 65535), and the label operand
makes the handler read the absent value field, raising KeyError instead
of consulting the symbol table. -/
theorem fill_emission_code_bug :
    assemble_statement (.fill (.labelRef "TARGET")) [("TARGET", 12290)] 12289 =
      .error (.keyError "value") ∧
    assemble_statement (.fill (.intVal (-1))) [] 0 = .ok (some [-1]) ∧
    ((-1 : Int) % 65536) = 65535 :=
  ⟨rfl, rfl, by decide⟩

/-- Claim C3.  The claim states that Blkw with size n advances pass 1 by
n and emits n zero words in pass 2.  Pass 1 does advance by n, but the
pass-2 handler reads the absent value field of the statement (its operand
is stored under size), raising KeyError before anything is emitted: even
one zero word for a Blkw of size 1 is never produced. -/
theorem blkw_emission_code_bug :
    size_of_ins (.blkw 1) = some 1 ∧
    assemble_statement (.blkw 1) [] 0 = .error (.keyError "value") :=
  ⟨rfl, rfl⟩

/-- Claim C4.  The claim states that the output has 1 + the sum of the
pass-1 word sizes many words, with the Stringz size being
ceil((len + 1) / 2), and that the two passes agree on every size.  The
code diverges on Stringz: pass 1 sizes it as floor((len + 1) / 2), and
pass 2 emits yet another count, so for the payload ABC pass 1 reserves 2
words while pass 2 emits 1 (the whole program below yields 2 output words
against the predicted 1 + 2 = 3), and for the empty payload pass 1
reserves 0 words while pass 2 emits 1. -/
theorem size_agreement_code_bug :
    size_of_ins (.stringz [65, 66, 67]) = some 2 ∧
    assemble [.orig 12288, .stringz [65, 66, 67], .endDir] [] = .ok [12288, 16706] ∧
    size_of_ins (.stringz []) = some 0 ∧
    assemble_statement (.stringz []) [] 0 = .ok (some [0]) :=
  ⟨rfl, rfl, rfl, rfl⟩

/-- Claim C5.  The claim states that both passes ignore every statement
after the first End statement.  Neither pass checks for End: a label
declared after the End statement still enters the symbol table in pass 1,
and a Fill after the End statement still emits its word in pass 2. -/
theorem end_not_ignored_code_bug :
    make_symbol_table [.orig 12288, .endDir, .labelDecl "X", .fill (.intVal 5)] =
      .ok [("X", 12288)] ∧
    assemble [.orig 12288, .endDir, .labelDecl "X", .fill (.intVal 5)] [("X", 12288)] =
      .ok [12288, 5] :=
  ⟨rfl, rfl⟩

/-- Claim C6, counterexample.  The claim states that pass 1 fails
whenever no Origin precedes the first emitting statement.  In this
sequence the only Origin comes after the emitting Fill statement, yet
pass 1 succeeds and returns a symbol table, because the code looks for an
ORIG directive anywhere in the list. -/
theorem orig_after_emitting_counterexample :
    make_symbol_table [.fill (.intVal 5), .orig 12288] = .ok [] :=
  rfl

/-- Claim C6, amended: pass 1 fails with the missing-ORIG error exactly
when the statement sequence contains no Origin statement at all; the
position of an Origin relative to emitting statements is irrelevant. -/
theorem missing_orig_error (statements : List Statement)
    (h : ∀ s ∈ statements, is_orig_statement s = false) :
    make_symbol_table statements = .error .missingOrig := by
  have horig : find_orig statements = none := by
    induction statements with
    | nil => rfl
    | cons s rest ih =>
      have hs := h s (List.mem_cons_self s rest)
      have hrest : ∀ t ∈ rest, is_orig_statement t = false := fun t ht =>
        h t (List.mem_cons_of_mem s ht)
      cases s with
      | orig address => simp [is_orig_statement] at hs
      | instruction ins => simpa [find_orig] using ih hrest
      | labelDecl ln => simpa [find_orig] using ih hrest
      | endDir => simpa [find_orig] using ih hrest
      | fill arg => simpa [find_orig] using ih hrest
      | blkw size => simpa [find_orig] using ih hrest
      | stringz v => simpa [find_orig] using ih hrest
  simp [make_symbol_table, horig]

/-- Witness for missing_orig_error at a concrete Origin-free sequence. -/
theorem missing_orig_error_witness :
    make_symbol_table [.fill (.intVal 5)] = .error .missingOrig :=
  missing_orig_error [.fill (.intVal 5)] (by decide)

/-- Claim C9.  A BR instruction with the empty suffix and a BRnzp
instruction generate the same machine word on every operand list, symbol
table and program counter: the empty suffix makes all of n, z, p zero,
and the naked-BR fixup then sets all three to one, exactly the values the
nzp suffix produces. -/
theorem br_naked_eq_brnzp (operands : List Operand) (symtable : List (String × Int))
    (pc : Int) :
    generate_BR { instruction := "BR", operands := operands } symtable pc =
      generate_BR { instruction := "BRnzp", operands := operands } symtable pc :=
  rfl

/-- Claim C10.  RET generates the word 0xC1C0, which is exactly the word
JMP generates for base register 7, while the REGISTER token pattern does
not match the text R7 (its digit range stops at 6), so R7 cannot be
spelled as an explicit register operand. -/
theorem ret_eq_jmp_r7 :
    generate_RET { instruction := "RET", operands := [] } = .ok 0xC1C0 ∧
    generate_JMP { instruction := "JMP", operands := [.register "R7" 7] } = .ok 0xC1C0 ∧
    register_token_matches "R7".data = false :=
  ⟨rfl, rfl, rfl⟩

/-- Claim C7.  For a PC-relative instruction sitting at location counter
lc, the program counter handed to the offset generators is lc + 1, and
for a label resolving to a given address: when the difference address
minus (lc + 1) fits the slot, the encoded offset field is exactly that
difference in two's complement in the slot width (9 bits, modulus 512;
11 bits, modulus 2048); when it does not fit, the generator fails with
the error that names the PC, the label and the target address. -/
theorem pcoffset_encoding_correct (symtable : List (String × Int)) (lc : Int)
    (label : String) (address : Int)
    (h : List.lookup label symtable = some address) :
    ((-256 ≤ address - (lc + 1) ∧ address - (lc + 1) ≤ 255) →
      generate_pcoffset9 label symtable (lc + 1) =
        .ok (((address - (lc + 1)) % 512).toNat)) ∧
    ((address - (lc + 1) < -256 ∨ 255 < address - (lc + 1)) →
      generate_pcoffset9 label symtable (lc + 1) =
        .error (.offsetRangeError 9 (lc + 1) label address)) ∧
    ((-1024 ≤ address - (lc + 1) ∧ address - (lc + 1) ≤ 1023) →
      generate_pcoffset11 label symtable (lc + 1) =
        .ok (((address - (lc + 1)) % 2048).toNat)) ∧
    ((address - (lc + 1) < -1024 ∨ 1023 < address - (lc + 1)) →
      generate_pcoffset11 label symtable (lc + 1) =
        .error (.offsetRangeError 11 (lc + 1) label address)) := by
  have hl : lookup_label label symtable = .ok address := by
    simp [lookup_label, h]
  refine ⟨?_, ?_, ?_, ?_⟩
  · rintro ⟨h1, h2⟩
    simp only [generate_pcoffset9, hl]
    rw [if_neg (by omega)]
    by_cases hneg : address - (lc + 1) < 0
    · rw [if_pos hneg]
      refine congrArg Except.ok ?_
      have e1 : (address - (lc + 1)) % 256 = address - (lc + 1) + 256 := by omega
      have e2 : (address - (lc + 1)) % 512 = address - (lc + 1) + 512 := by omega
      rw [e1, e2, show (0x1 <<< 8 : Nat) = 256 from rfl,
        lor_bit8_eq_add ((address - (lc + 1) + 256)).toNat (by omega)]
      omega
    · rw [if_neg hneg]
      refine congrArg Except.ok ?_
      have e2 : (address - (lc + 1)) % 512 = address - (lc + 1) := by omega
      rw [e2]
  · intro ho
    simp only [generate_pcoffset9, hl]
    rw [if_pos (by omega)]
  · rintro ⟨h1, h2⟩
    simp only [generate_pcoffset11, hl]
    rw [if_neg (by omega)]
    by_cases hneg : address - (lc + 1) < 0
    · rw [if_pos hneg]
      refine congrArg Except.ok ?_
      have e1 : (address - (lc + 1)) % 1024 = address - (lc + 1) + 1024 := by omega
      have e2 : (address - (lc + 1)) % 2048 = address - (lc + 1) + 2048 := by omega
      rw [e1, e2, show (0x1 <<< 10 : Nat) = 1024 from rfl,
        lor_bit10_eq_add ((address - (lc + 1) + 1024)).toNat (by omega)]
      omega
    · rw [if_neg hneg]
      refine congrArg Except.ok ?_
      have e2 : (address - (lc + 1)) % 2048 = address - (lc + 1) := by omega
      rw [e2]
  · intro ho
    simp only [generate_pcoffset11, hl]
    rw [if_pos (by omega)]

/-- Witness for pcoffset_encoding_correct: a backward 9-bit offset in
range (from location counter 12292 to address 12288, offset minus 5,
encoded 0x1FB) and an 11-bit target out of range (fatal error naming the
PC 12293, the label and the address 20000). -/
theorem pcoffset_encoding_correct_witness :
    generate_pcoffset9 "LOOP" [("LOOP", 12288)] (12292 + 1) = .ok 507 ∧
    generate_pcoffset11 "FAR" [("FAR", 20000)] (12292 + 1) =
      .error (.offsetRangeError 11 (12292 + 1) "FAR" 20000) := by
  constructor
  · exact ((pcoffset_encoding_correct [("LOOP", 12288)] 12292 "LOOP" 12288 rfl).1
      (by decide)).trans rfl
  · exact (pcoffset_encoding_correct [("FAR", 20000)] 12292 "FAR" 20000 rfl).2.2.2
      (by decide)

/-- Claim C8.  The claim states that every accepted HEX token carries the
unsigned value of its digit string, naming x000F (value 15) and x0 (value
0) as examples.  The left-strip of the characters 0 and x eats the whole
text of x0, and int of the empty string raises ValueError, so the lexer
crashes on x0 instead of producing the value 0; x000F does survive with
the correct value 15 because the strip only removes leading zeros, which
do not change the value. -/
theorem hex_lex_code_bug :
    hex_token_value "x0".data = .error .valueError ∧
    parse_hex_digits "0".data = 0 ∧
    hex_token_value "x000F".data = .ok 15 ∧
    parse_hex_digits "000F".data = 15 :=
  ⟨rfl, rfl, rfl, rfl⟩
